import Mathlib

/-!
Verification development for the Batch Inference and Persistence Pipeline of
the ai-corporate-suite repository.  The Python sources under `src/core/` and
`src/db/` are shallowly embedded below: pandas cells become an explicit `Cell`
type, dataframes become column lists plus rows of association lists, machine
floats used as probabilities become exact rationals, fallible calls (CSV
reading, model scoring, store writes) become `Except`, and the process-global
Supabase client becomes explicit state passing.  Every definition is
translated from the source file and line range named in its doc comment.
-/

set_option maxHeartbeats 1000000


/-- A pandas cell: a numeric value, a string value, or a missing value (NaN /
NaT / pd.NA are collapsed into one `na` constructor; the code paths modelled
here treat them uniformly). -/
inductive Cell where
  | num (q : ℚ)
  | str (s : String)
  | na
deriving DecidableEq

/-- A dataframe row as an association list from column name to cell.  A key
absent from the list models a column absent from the frame (for the per-row
reading of the columnwise pandas code). -/
abbrev Row : Type := List (String × Cell)

/-- Decimal digit value of a digit character. -/
def digitVal (c : Char) : Nat := c.toNat - 48

/-- All characters are decimal digits. -/
def isDigits (l : List Char) : Bool := l.all (·.isDigit)

/-- Decimal reading of a digit list (most significant first). -/
def digitsToNat (l : List Char) : Nat := l.foldl (fun a c => a * 10 + digitVal c) 0

/-- Unsigned decimal parsing: integer part, optional dot, fractional part.
Models the accepting core of `pd.to_numeric` / Python `float` on cleaned
numeric-looking strings (scientific notation is outside the modelled inputs). -/
def parseUnsigned (l : List Char) : Option ℚ :=
  let ip := l.takeWhile (· != '.')
  let rest := l.dropWhile (· != '.')
  match rest with
  | [] =>
    if ip.isEmpty then none
    else if isDigits ip then some (mkRat (digitsToNat ip) 1) else none
  | _ :: fp =>
    if ip.isEmpty && fp.isEmpty then none
    else if isDigits ip && isDigits fp then
      some (mkRat (digitsToNat ip * 10 ^ fp.length + digitsToNat fp) (10 ^ fp.length))
    else none

/-- Signed decimal parsing of a string, `none` on anything `pd.to_numeric`
(with `errors="coerce"`) would turn into NaN. -/
def parseRat (s : String) : Option ℚ :=
  match s.data with
  | [] => none
  | '-' :: rest => (parseUnsigned rest).map (fun q => -q)
  | '+' :: rest => parseUnsigned rest
  | l => parseUnsigned l

/-- Little-endian decimal digits of a natural number, with explicit fuel so
that the recursion is structural and evaluates inside the kernel.  With fuel
at least `n` this agrees with `Nat.digits 10 n` (proved below). -/
def natDigitsRev : Nat → Nat → List Nat
  | 0, _ => []
  | _, 0 => []
  | f + 1, n + 1 => (n + 1) % 10 :: natDigitsRev f ((n + 1) / 10)

/-- Decimal rendering of a natural number, as Python `str`/f-string
interpolation renders a nonnegative int. -/
def natDecimal (n : Nat) : String :=
  if n = 0 then "0" else String.mk (((natDigitsRev n n).reverse).map Nat.digitChar)

/-- Pandas `astype(str)` on a nullable integer column, applied to one value:
an integer becomes its decimal string and a missing value (`pd.NA`) becomes
the string `"<NA>"`.  This stringification is what makes the downstream
`.fillna("Unknown")` in `StockoutFeatureEngineer.transform` a no-op. -/
def astypeInt64Str : Option Nat → String
  | some n => natDecimal n
  | none => "<NA>"

/-- Pandas `Series.fillna(default)` applied to one cell: replaces only a
missing cell, leaves every non-missing cell unchanged. -/
def fillnaCell (d : Cell) : Cell → Cell
  | .na => d
  | c => c

/-- Pandas `astype(str)` on an object column, applied to one cell. -/
def astypeStrCell : Cell → Cell
  | .str s => .str s
  | .num q => .str (toString q)
  | .na => .str "nan"

/-! ## StockoutFeatureEngineer (src/core/stockout_predictor.py lines 18-87)

The pandas code operates columnwise, but every operation it performs is
elementwise per row (rename, `pd.to_datetime` + `.dt` accessors, `astype`,
`str.replace`/`str.strip`, `pd.to_numeric`, `fillna`), so `transform` is
embedded as a per-row function; the dataframe transform is this function
mapped over the rows. -/

/-- Categorical schema columns, `StockoutFeatureEngineer.cat_cols`. -/
def stockout_cat_cols : List String :=
  ["store_id", "category", "region", "weather", "holiday_promo",
   "seasonality", "month", "day_of_week", "product_id"]

/-- Numeric schema columns, `StockoutFeatureEngineer.num_cols`. -/
def stockout_num_cols : List String :=
  ["inventory_level", "units_sold", "price", "discount",
   "competitor_pricing", "is_weekend"]

/-- The declarative rename map of `transform` (PRO dataset column to internal
schema column), src/core/stockout_predictor.py lines 36-51. -/
def stockoutRenameMap : List (String × String) :=
  [("Date", "date"), ("Store ID", "store_id"), ("Product ID", "product_id"),
   ("Category", "category"), ("Region", "region"),
   ("Inventory Level", "inventory_level"), ("Units Sold", "units_sold"),
   ("Units Ordered", "units_ordered"), ("Price", "price"),
   ("Discount", "discount"), ("Weather Condition", "weather"),
   ("Holiday/Promotion", "holiday_promo"),
   ("Competitor Pricing", "competitor_pricing"), ("Seasonality", "seasonality")]

/-- The rename `df.rename(columns=mapping)` applied to one column name. -/
def renameCol (c : String) : String := (stockoutRenameMap.lookup c).getD c

/-- Rename every key of a row. -/
def renameRow (r : Row) : Row := r.map (fun p => (renameCol p.1, p.2))

/-- What `pd.to_datetime(-, errors="coerce", dayfirst=True)` extracts from one
date cell, as consumed by the `.dt` accessors of `transform`: the month and
the day of week (Monday = 0 .. Sunday = 6).  An unparsable cell is `none`
(NaT).  The permissive parser itself is kept abstract: the transform below is
parameterised by it. -/
structure PyDate where
  month : Nat
  dayofweek : Nat
deriving DecidableEq

/-- Column lookup in a row (first binding wins, as for unique pandas columns). -/
def lookupCell (r : Row) (c : String) : Option Cell := r.lookup c

/-- Pandas column assignment `df[c] = v` for one row: overwrites the binding. -/
def setCell (r : Row) (c : String) (v : Cell) : Row :=
  (r.filter (fun p => p.1 != c)) ++ [(c, v)]

/-- The time-feature block of `transform` (lines 54-63) applied to one row.
With a `date` column present: `month` and `day_of_week` are computed as
`.dt.<field>.astype("Int64").astype(str).fillna("Unknown")` — note that
`astype(str)` stringifies a missing value to `"<NA>"` before `fillna` runs —
and `is_weekend` is `.dt.dayofweek.isin([5, 6]).astype(float)`.  Without a
`date` column all three get literal defaults. -/
def timeFeatures (parseDate : Cell → Option PyDate) (r : Row) : Row :=
  match lookupCell r "date" with
  | some cell =>
    let d := parseDate cell
    let r := setCell r "month"
      (fillnaCell (.str "Unknown") (.str (astypeInt64Str (d.map (·.month)))))
    let r := setCell r "day_of_week"
      (fillnaCell (.str "Unknown") (.str (astypeInt64Str (d.map (·.dayofweek)))))
    setCell r "is_weekend"
      (.num (match d with
             | some pd => if pd.dayofweek = 5 ∨ pd.dayofweek = 6 then 1 else 0
             | none => 0))
  | none =>
    let r := setCell r "month" (.str "Unknown")
    let r := setCell r "day_of_week" (.str "Unknown")
    setCell r "is_weekend" (.num 0)

/-- The string cleaning of lines 77-83: `.str.replace(",", "")` removes every
comma and `.str.strip()` removes leading and trailing whitespace.  Written at
the character-list level so that it evaluates inside the kernel. -/
def cleanNumericStr (s : String) : String :=
  String.mk
    ((((s.data.filter (· != ',')).dropWhile (·.isWhitespace)).reverse.dropWhile
        (·.isWhitespace)).reverse)

/-- The numeric-schema enforcement of lines 72-85 applied to one cell:
string cells are cleaned and coerced (`pd.to_numeric(errors="coerce")`),
anything non-coercible or missing is filled with `0.0`. -/
def coerceNum : Cell → ℚ
  | .num q => q
  | .str s => (parseRat (cleanNumericStr s)).getD 0
  | .na => 0

/-- The categorical-schema enforcement of lines 66-69 for one column: an
absent column is filled with `"Unknown"`, then `astype(str)`. -/
def catCell (r : Row) (c : String) : Cell :=
  match lookupCell r c with
  | none => astypeStrCell (.str "Unknown")
  | some x => astypeStrCell x

/-- The numeric-schema enforcement of lines 72-85 for one column: an absent
column is filled with `0.0`, then cleaned and coerced. -/
def numCell (r : Row) (c : String) : Cell :=
  match lookupCell r c with
  | none => .num (coerceNum (.num 0))
  | some x => .num (coerceNum x)

/-- The transform `StockoutFeatureEngineer.transform` (lines 32-87) on one row: rename,
time features, categorical enforcement, numeric enforcement, and the final
projection `df[cat_cols + num_cols]`. -/
def stockoutTransformRow (parseDate : Cell → Option PyDate) (r : Row) : Row :=
  let r2 := timeFeatures parseDate (renameRow r)
  (stockout_cat_cols.map (fun c => (c, catCell r2 c)))
    ++ (stockout_num_cols.map (fun c => (c, numCell r2 c)))

/-- Value of the transformed row at one output column. -/
def transformValue (parseDate : Cell → Option PyDate) (r : Row) (c : String) : Option Cell :=
  lookupCell (stockoutTransformRow parseDate r) c

/-! ## StockoutPredictor risk classifier (src/core/stockout_predictor.py lines 129-136) -/

/-- The classifier `StockoutPredictor._get_risk_level`: the probability-to-tier classifier,
evaluated top-down with closed (inclusive) lower bounds. -/
def get_risk_level (score : ℚ) : String :=
  if score ≥ mkRat 80 100 then "CRITICAL"
  else if score ≥ mkRat 50 100 then "HIGH"
  else if score ≥ mkRat 20 100 then "MEDIUM"
  else "LOW"

/-- The spec reading of the classifier (spec.md section 4.4 and section 8):
each tier is the half-open interval carved out of the scale by the ordered
closed thresholds, so that every score lies in exactly one tier. -/
def riskTierSpec (score : ℚ) : String :=
  if mkRat 80 100 ≤ score then "CRITICAL"
  else if mkRat 50 100 ≤ score ∧ score < mkRat 80 100 then "HIGH"
  else if mkRat 20 100 ≤ score ∧ score < mkRat 50 100 then "MEDIUM"
  else "LOW"

/-- Severity rank of a tier in the order LOW < MEDIUM < HIGH < CRITICAL. -/
def riskRank : String → Nat
  | "MEDIUM" => 1
  | "HIGH" => 2
  | "CRITICAL" => 3
  | _ => 0

/-! ## Persistence batching

`NASAPredictor._persist_batches` (src/core/nasa_predictor.py lines 131-152),
`StockoutPredictor._persist_to_db` (src/core/stockout_predictor.py lines
194-204) and the inline loop of `SmartPortPredictor.predict_from_file`
(src/core/smartport_predictor.py lines 82-88) all iterate
`for i in range(0, len(records), batch_size): write(records[i:i + batch_size])`.
The store write is abstracted as an `Except`-valued function. -/

/-- The contiguous chunks produced by
`for i in range(0, len(records), B): records[i:i + B]`: the loop indices are
`0, B, 2B, ...` below `records.length`, so there are `ceil(length / B)` of
them, and the slice `records[i:i + B]` is `take B (drop i records)`. -/
def pyChunks (B : Nat) (records : List α) : List (List α) :=
  (List.range ((records.length + B - 1) / B)).map
    (fun k => (records.drop (k * B)).take B)

/-- The store interactions of one `_persist_batches` / `_persist_to_db` call:
which chunk writes were submitted to the store, which chunk writes the store
committed, and the message of the logged failure, if any. -/
structure PersistOutcome (α : Type) where
  attempted : List (List α)
  committed : List (List α)
  errorLogged : Option String
deriving DecidableEq

/-- The chunk-writing loop with the `try` placed around the whole loop, as in
`NASAPredictor._persist_batches` (src/core/nasa_predictor.py lines 140-152)
and `StockoutPredictor._persist_to_db` (src/core/stockout_predictor.py lines
199-204): each chunk is written in order; the first raising write aborts the
loop (the remaining chunks are never submitted) and its message is logged;
writes committed before the failure are not undone. -/
def runChunks (write : List α → Except String Unit) : List (List α) → PersistOutcome α
  | [] => ⟨[], [], none⟩
  | c :: cs =>
    match write c with
    | .ok _ =>
      let r := runChunks write cs
      ⟨c :: r.attempted, c :: r.committed, r.errorLogged⟩
    | .error e => ⟨[c], [], some e⟩

/-- Runs `_persist_batches` on a record list: chunk it, then run the loop. -/
def persist_batches (write : List α → Except String Unit) (B : Nat) (records : List α) :
    PersistOutcome α :=
  runChunks write (pyChunks B records)

/-! ## Dataframes and the three predictors

Each `predict_from_file` has its I/O-bound collaborators passed explicitly:
the result of `pd.read_csv` as an `Except` (reading may raise), the loaded
scoring pipeline as a function from a dataframe to `Except` (scoring may
raise, e.g. on a feature-arity mismatch), the uuid4 stream as a function from
a draw counter, wall-clock timestamps as strings, and the optional Supabase
client as an `Except`-valued chunk writer. -/

/-- A parsed dataframe: the column names and the rows. -/
structure Df where
  cols : List String
  rows : List Row
deriving DecidableEq

/-- Models `df.drop(columns=cs, errors="ignore")`. -/
def dropCols (df : Df) (cs : List String) : Df :=
  { cols := df.cols.filter (fun c => !(cs.contains c)),
    rows := df.rows.map (fun r => r.filter (fun p => !(cs.contains p.1))) }

/-- Reading a cell of a column known to be in the frame: a missing binding in
the row is a NaN cell. -/
def getCol (r : Row) (c : String) : Cell := (lookupCell r c).getD .na

/-- Python `str()` of one cell (pandas `astype(str)` elementwise). -/
def cellStr : Cell → String
  | .str s => s
  | .num q => toString q
  | .na => "nan"

/-- Numpy `astype(int)` on one cell, as applied to the `cycle` column by
`NASAPredictor.predict_from_file` line 112: a number truncates toward zero, a
string must spell an integer, NaN raises. -/
def cellToInt : Cell → Except String Int
  | .num q => .ok (q.num / (q.den : Int))
  | .str s =>
    match parseRat s with
    | some q => if q.den = 1 then .ok q.num else .error "invalid literal for int()"
    | none => .error "invalid literal for int()"
  | .na => .error "cannot convert non-finite values to integer"

/-- Models `pd.to_numeric(-, errors="coerce").fillna(0.0)` on one cell, without the
comma/whitespace cleaning (as used in `StockoutPredictor.predict_from_file`
lines 151-159 for the price and velocity columns). -/
def coerceNumPlain : Cell → ℚ
  | .num q => q
  | .str s => (parseRat s).getD 0
  | .na => 0

/-! ### NASAPredictor (src/core/nasa_predictor.py lines 80-152) -/

/-- One row of the `results_df` persisted by the NASA predictor
(src/core/nasa_predictor.py lines 109-115). -/
structure NasaRecord where
  prediction_id : String
  unit_id : Cell
  cycle : Int
  predicted_rul : ℚ
  timestamp : String
deriving DecidableEq

/-- The structured response value of `NASAPredictor.predict_from_file`:
either `{"success": True, "processed_records": n}` or
`{"success": False, "detail": d}`. -/
inductive NasaResponse where
  | ok (processed_records : Nat)
  | failure (detail : String)
deriving DecidableEq

/-- Construction of `results_df` (lines 107-115) as records: a fresh uuid4
draw per row, the `unit_id` value of the row, its `cycle` value through
`astype(int)`, the prediction, and the shared batch timestamp.  Pandas raises
if the prediction array length differs from the frame length. -/
def buildNasaRecords (uuid : Nat → String) (c0 : Nat) (now : String)
    (df : Df) (preds : List ℚ) : Except String (List NasaRecord) :=
  if preds.length ≠ df.rows.length then .error "All arrays must be of the same length"
  else
    ((List.range df.rows.length).zip (df.rows.zip preds)).mapM
      (fun t =>
        match cellToInt (getCol t.2.1 "cycle") with
        | .error e => .error e
        | .ok cyc =>
          .ok { prediction_id := uuid (c0 + t.1), unit_id := getCol t.2.1 "unit_id",
                cycle := cyc, predicted_rul := t.2.2, timestamp := now })

/-- Embeds `NASAPredictor.predict_from_file` (lines 80-127) together with the store
interactions of its `_persist_batches` call.  The body is wrapped in
`try/except Exception` returning `{"success": False, "detail": str(e)}`, so
every raising step yields a structured failure; the required-column check
(lines 93-100) runs before anything is persisted. -/
def nasa_predict_from_file
    (pipeline : Option (Df → Except String (List ℚ)))
    (read_csv : Except String Df)
    (uuid : Nat → String) (c0 : Nat) (now : String)
    (supabase : Option (List NasaRecord → Except String Unit)) :
    NasaResponse × PersistOutcome NasaRecord :=
  match pipeline with
  | none => (.failure "Model not initialized", ⟨[], [], none⟩)
  | some model =>
    match read_csv with
    | .error e => (.failure e, ⟨[], [], none⟩)
    | .ok df =>
      if "unit_id" ∉ df.cols then
        (.failure "Missing required column: unit_id", ⟨[], [], none⟩)
      else if "cycle" ∉ df.cols then
        (.failure "Missing required column: cycle", ⟨[], [], none⟩)
      else
        match model (dropCols df ["unit_id", "cycle"]) with
        | .error e => (.failure e, ⟨[], [], none⟩)
        | .ok preds =>
          match buildNasaRecords uuid c0 now df preds with
          | .error e => (.failure e, ⟨[], [], none⟩)
          | .ok records =>
            match supabase with
            | some write => (.ok records.length, persist_batches write 4000 records)
            | none => (.ok records.length, ⟨[], [], none⟩)

/-! ### StockoutPredictor (src/core/stockout_predictor.py lines 97-204) -/

/-- One row of the `results_df` persisted by the stockout predictor
(src/core/stockout_predictor.py lines 169-176). -/
structure StockoutRecord where
  prediction_id : String
  product_id : String
  risk_score : ℚ
  risk_level : String
  financial_impact : ℚ
  timestamp : String
deriving DecidableEq

/-- The structured response value of `StockoutPredictor.predict_from_file`
(summary aggregates such as `total_exposure` are recoverable from the records
and not duplicated here). -/
inductive StockoutResponse where
  | ok (processed_records : Nat)
  | failure (detail : String)
deriving DecidableEq

/-- Models `df_raw.get(c1, df_raw.get(c2, 0))` through `pd.to_numeric` with NaN
filled by `0.0`, for one row (lines 151-159). -/
def getNumFallback (r : Row) (c1 c2 : String) : ℚ :=
  match lookupCell r c1 with
  | some v => coerceNumPlain v
  | none =>
    match lookupCell r c2 with
    | some v => coerceNumPlain v
    | none => 0

/-- Models `df_raw.get("Product ID", df_raw.get("product_id", "Unknown"))` followed
by `astype(str)`, for one row (lines 165-171). -/
def getProductId (r : Row) : String :=
  match lookupCell r "Product ID" with
  | some v => cellStr v
  | none =>
    match lookupCell r "product_id" with
    | some v => cellStr v
    | none => "Unknown"

/-- Construction of the stockout `results_df` (lines 169-176) as records. -/
def buildStockoutRecords (uuid : Nat → String) (c0 : Nat) (now_ts : String)
    (df : Df) (probs : List ℚ) : Except String (List StockoutRecord) :=
  if probs.length ≠ df.rows.length then .error "All arrays must be of the same length"
  else
    .ok (((List.range df.rows.length).zip (df.rows.zip probs)).map
      (fun t =>
        { prediction_id := uuid (c0 + t.1), product_id := getProductId t.2.1,
          risk_score := t.2.2, risk_level := get_risk_level t.2.2,
          financial_impact :=
            t.2.2 * getNumFallback t.2.1 "Price" "price"
              * getNumFallback t.2.1 "Units Sold" "units_sold",
          timestamp := now_ts }))

/-- Embeds `StockoutPredictor.predict_from_file` (lines 138-192) together with the
store interactions of its `_persist_to_db` call.  The body is wrapped in
`try/except Exception` returning `{"success": False, "detail": str(e)}`;
`_persist_to_db` catches its own failures, so persistence never changes the
response. -/
def stockout_predict_from_file
    (pipeline : Option (Df → Except String (List ℚ)))
    (read_csv : Except String Df)
    (uuid : Nat → String) (c0 : Nat) (now_ts : String)
    (supabase : Option (List StockoutRecord → Except String Unit)) :
    StockoutResponse × PersistOutcome StockoutRecord :=
  match pipeline with
  | none => (.failure "Engine not initialized", ⟨[], [], none⟩)
  | some model =>
    match read_csv with
    | .error e => (.failure e, ⟨[], [], none⟩)
    | .ok df =>
      match model df with
      | .error e => (.failure e, ⟨[], [], none⟩)
      | .ok probs =>
        match buildStockoutRecords uuid c0 now_ts df probs with
        | .error e => (.failure e, ⟨[], [], none⟩)
        | .ok records =>
          match supabase with
          | some write => (.ok df.rows.length, persist_batches write 5000 records)
          | none => (.ok df.rows.length, ⟨[], [], none⟩)

/-! ### SmartPortPredictor (src/core/smartport_predictor.py lines 8-106) -/

/-- One record saved to `smartport_alerts`
(src/core/smartport_predictor.py lines 62-79). -/
structure SPRecord where
  vessel_index : Nat
  risk_score : ℚ
  risk_level : String
  timestamp : String
  recommended_action : Option String
  prediction_id : String
deriving DecidableEq

/-- The risk lambda of line 66: `CRITICAL` at probability at least 0.90,
`WARNING` at probability at least 0.70, `NORMAL` below. -/
def sp_risk_level (x : ℚ) : String :=
  if x ≥ mkRat 90 100 then "CRITICAL"
  else if x ≥ mkRat 70 100 then "WARNING" else "NORMAL"

/-- The dict `self.ACTION_MAP` (lines 30-34); `Series.map` with a dict gives NaN for an
unmapped key, hence the `Option` result of a lookup. -/
def ACTION_MAP : List (String × String) :=
  [("CRITICAL", "IMMEDIATE: Priority berthing & Tugboat standby."),
   ("WARNING", "PROACTIVE: Verify ETA and terminal capacity."),
   ("NORMAL", "ROUTINE: Follow standard operations.")]

/-- The prediction id of line 79:
an f-string interpolating the seconds-resolution stamp
`datetime.now().strftime("%Y%m%d%H%M%S")` and the vessel index of the record,
where `idStamp` is the seconds-resolution wall-clock string. -/
def smartportPredictionId (idStamp : String) (idx : Nat) : String :=
  "SP_" ++ idStamp ++ "_" ++ natDecimal idx

/-- The result records of lines 62-79: `vessel_index` is `df.index`
(`0, 1, ...`), risk level via the line-66 lambda, recommended action via
`ACTION_MAP`, and the prediction id stamped from the clock reading of the
call. -/
def smartportRecords (nowStr idStamp : String) (probs : List ℚ) : List SPRecord :=
  probs.enum.map (fun t =>
    { vessel_index := t.1, risk_score := t.2, risk_level := sp_risk_level t.2,
      timestamp := nowStr,
      recommended_action := ACTION_MAP.lookup (sp_risk_level t.2),
      prediction_id := smartportPredictionId idStamp t.1 })

/-- Models `df.drop(columns=["delay_flag"], errors="ignore")` then the alignment loop
of lines 49-53: every expected feature missing from the frame is added as
`0`, then the frame is projected onto the expected features in order. -/
def alignCols (df : Df) (expected : List String) : Df :=
  { cols := expected,
    rows := df.rows.map (fun r =>
      expected.map (fun c => (c, (lookupCell r c).getD (.num 0)))) }

/-- Embeds `SmartPortPredictor.predict_from_file` (lines 36-105).  Unlike the other
two predictors its `except` block re-raises (line 105), so every raising step
propagates to the caller as an exception — the result type is `Except`, and
no raising path produces a structured `success = False` value.  On success it
returns `predictions_generated` together with the records written in batches
of 1000 (a failing insert also raises out of the call). -/
def smartport_predict_from_file
    (pipeline : Df → Except String (List ℚ)) (expected_features : List String)
    (read_csv : Except String Df) (nowStr idStamp : String)
    (write : List SPRecord → Except String Unit) :
    Except String (Nat × List SPRecord) := do
  let df ← read_csv
  let X := alignCols (dropCols df ["delay_flag"]) expected_features
  let probs ← pipeline X
  let records := smartportRecords nowStr idStamp probs
  let _ ← (pyChunks 1000 records).mapM write
  .ok (records.length, records)

/-! ## get_supabase (src/db/supabase_client.py lines 10-32) -/

/-- The observable outcome of one `get_supabase()` call: the returned value,
the value of the module-global `_supabase_client` after the call, and whether
`create_client` was invoked during the call. -/
structure SupaResult (Client : Type) where
  ret : Option Client
  state : Option Client
  createCalled : Bool
deriving DecidableEq

/-- Python truthiness of `not url` for an environment string: true for an
unset variable (`None`) and for the empty string. -/
def pyFalsy : Option String → Bool
  | none => true
  | some s => s == ""

/-- Embeds `get_supabase` with the module global `_supabase_client` passed as
explicit state `st`: a cached client is returned as is; otherwise missing or
empty `SUPABASE_URL`/`SUPABASE_KEY` returns `None` without touching the
global; otherwise `create_client` is attempted, caching on success and
returning `None` on failure (the assignment never happens when
`create_client` raises).  Every path returns; nothing raises. -/
def get_supabase (Client : Type) (url key : Option String)
    (create_client : String → String → Except String Client)
    (st : Option Client) : SupaResult Client :=
  match st with
  | some c => ⟨some c, some c, false⟩
  | none =>
    match url, key with
    | some u, some k =>
      if u == "" || k == "" then ⟨none, none, false⟩
      else
        match create_client u k with
        | .ok c => ⟨some c, some c, true⟩
        | .error _ => ⟨none, none, true⟩
    | _, _ => ⟨none, none, false⟩

/-- A store write that fails exactly on the chunk holding record 3. -/
def failingWrite : List ℕ → Except String Unit :=
  fun c => if c.contains 3 then .error "store unavailable" else .ok ()

/-- The uuid4 draws consumed by one call that generates `n` prediction ids
starting at draw counter `c0`, as in
`[str(uuid.uuid4()) for _ in range(len(df_raw))]`. -/
def uuidBatch (uuid : Nat → String) (c0 n : Nat) : List String :=
  (List.range n).map (fun k => uuid (c0 + k))

/-- A concrete permissive date parser for evaluating the time features: it
recognises the one date string `"2024-01-06"` (a Saturday, weekday 5 in
January) and fails on everything else. -/
def datableParser : Cell → Option PyDate :=
  fun c => if c = Cell.str "2024-01-06" then some ⟨1, 5⟩ else none


theorem natDigitsRev_eq_digits : ∀ fuel n, n ≤ fuel → natDigitsRev fuel n = Nat.digits 10 n := by
  intro fuel
  induction fuel with
  | zero =>
    intro n hn
    obtain rfl : n = 0 := Nat.le_zero.mp hn
    simp [natDigitsRev]
  | succ f ih =>
    intro n hn
    match n with
    | 0 => simp [natDigitsRev]
    | m + 1 =>
      have hlt : (m + 1) / 10 ≤ f := by
        have := Nat.div_lt_self (Nat.succ_pos m) (by norm_num : 1 < 10)
        omega
      rw [natDigitsRev, ih _ hlt, Nat.digits_def' (by norm_num : 1 < 10) (Nat.succ_pos m)]

example : parseRat "1234" = some (mkRat 1234 1) := by decide

example : parseRat "12.5" = some (mkRat 25 2) := by decide

example : parseRat "-3" = some (mkRat (-3) 1) := by decide

example : parseRat "abc" = none := by decide

example : parseRat "" = none := by decide

example : natDecimal 0 = "0" := by decide

example : natDecimal 507 = "507" := by decide

/-- One step of the chunking loop: on a nonempty list the first chunk is the
first `B` records and the remaining chunks are the chunks of the rest. -/
theorem pyChunks_cons (B : Nat) (hB : 1 ≤ B) (l : List α) (hl : l ≠ []) :
    pyChunks B l = l.take B :: pyChunks B (l.drop B) := by
  have hn : 0 < l.length := List.length_pos.mpr hl
  have hcount : (l.length + B - 1) / B = (l.length - 1) / B + 1 := by
    have h1 : l.length + B - 1 = (l.length - 1) + B := by omega
    rw [h1, Nat.add_div_right _ (by omega)]
  have hcount2 : ((l.drop B).length + B - 1) / B = (l.length - 1) / B := by
    rw [List.length_drop]
    rcases Nat.lt_or_ge (l.length) (B + 1) with h | h
    · have h1 : l.length - B = 0 := by omega
      rw [h1, Nat.div_eq_of_lt (by omega : 0 + B - 1 < B),
        Nat.div_eq_of_lt (by omega : l.length - 1 < B)]
    · have h1 : l.length - B + B - 1 = (l.length - B - 1) + B := by omega
      have h2 : l.length - 1 = (l.length - B - 1) + B := by omega
      rw [h1, h2]
  rw [pyChunks, pyChunks, hcount, hcount2, List.range_succ_eq_map]
  simp only [List.map_cons, Nat.zero_mul, List.drop_zero, List.map_map]
  congr 1
  apply List.map_congr_left
  intro k _
  simp only [Function.comp_apply, List.drop_drop]
  rw [Nat.succ_mul, Nat.add_comm]

/-- Chunking the empty record list yields no chunks. -/
theorem pyChunks_nil (B : Nat) : pyChunks B ([] : List α) = [] := by
  rcases Nat.eq_zero_or_pos B with hB | hB
  · simp [pyChunks, hB]
  · simp [pyChunks, Nat.div_eq_of_lt (by omega : B - 1 < B)]

/-- The chunks of `records[i:i + B]` for `i in range(0, len(records), B)`
partition the record list: their concatenation is the record list itself. -/
theorem pyChunks_flatten (B : Nat) (hB : 1 ≤ B) (l : List α) :
    (pyChunks B l).flatten = l := by
  generalize hn : l.length = n
  induction n using Nat.strong_induction_on generalizing l with
  | _ n ih =>
    match l, hn with
    | [], _ => rw [pyChunks_nil]; rfl
    | a :: l2, hn =>
      rw [pyChunks_cons B hB _ (by simp), List.flatten_cons,
        ih ((a :: l2).drop B).length (by simp_all; omega) _ rfl,
        List.take_append_drop]

/-- When every chunk write succeeds, the loop commits every chunk. -/
theorem runChunks_all_ok (write : List α → Except String Unit)
    (cs : List (List α)) (h : ∀ c ∈ cs, write c = .ok ()) :
    runChunks write cs = ⟨cs, cs, none⟩ := by
  induction cs with
  | nil => rfl
  | cons c cs ih =>
    have hc : write c = .ok () := h c (by simp)
    rw [runChunks, hc, ih (fun d hd => h d (by simp [hd]))]

/-- When the chunks are a prefix of successful writes, then a failing chunk,
the loop attempts exactly the prefix and the failing chunk, commits exactly
the prefix, logs the failure message, and never submits the remaining
chunks. -/
theorem runChunks_fail (write : List α → Except String Unit)
    (pre : List (List α)) (c : List α) (post : List (List α)) (e : String)
    (hpre : ∀ d ∈ pre, write d = .ok ()) (hc : write c = .error e) :
    runChunks write (pre ++ c :: post) = ⟨pre ++ [c], pre, some e⟩ := by
  induction pre with
  | nil => simp [runChunks, hc]
  | cons d pre ih =>
    have hd : write d = .ok () := hpre d (by simp)
    rw [List.cons_append, runChunks, hd,
      ih (fun x hx => hpre x (by simp [hx]))]
    simp

/-! ## Injectivity of the decimal rendering (for the prediction-id claims) -/

/-- The function `Nat.digitChar` is injective on digits below 10. -/
theorem digitChar_inj_lt10 (a b : Nat) (ha : a < 10) (hb : b < 10)
    (h : Nat.digitChar a = Nat.digitChar b) : a = b := by
  have key : ∀ x : Fin 10, ∀ y : Fin 10,
      Nat.digitChar x.val = Nat.digitChar y.val → x.val = y.val := by decide
  exact key ⟨a, ha⟩ ⟨b, hb⟩ h

/-- Mapping `Nat.digitChar` over lists of digits below 10 is injective. -/
theorem map_digitChar_inj : ∀ l1 l2 : List Nat, (∀ x ∈ l1, x < 10) →
    (∀ x ∈ l2, x < 10) → l1.map Nat.digitChar = l2.map Nat.digitChar → l1 = l2 := by
  intro l1
  induction l1 with
  | nil =>
    intro l2 _ _ h
    cases l2 with
    | nil => rfl
    | cons b t => simp at h
  | cons a t1 ih =>
    intro l2 h1 h2 h
    cases l2 with
    | nil => simp at h
    | cons b t2 =>
      simp only [List.map_cons, List.cons.injEq] at h
      have ha : a = b :=
        digitChar_inj_lt10 a b (h1 a (by simp)) (h2 b (by simp)) h.1
      have ht : t1 = t2 :=
        ih t2 (fun x hx => h1 x (by simp [hx])) (fun x hx => h2 x (by simp [hx])) h.2
      rw [ha, ht]

/-- The decimal rendering of a natural number is injective: distinct row
indices always give distinct digit strings. -/
theorem natDecimal_inj : ∀ a b : Nat, natDecimal a = natDecimal b → a = b := by
  have render : ∀ n : Nat, n ≠ 0 →
      natDecimal n = String.mk (((Nat.digits 10 n).reverse).map Nat.digitChar) := by
    intro n hn
    rw [natDecimal, if_neg hn, natDigitsRev_eq_digits n n le_rfl]
  have digitsOf : ∀ n : Nat, n ≠ 0 → natDecimal n ≠ "0" := by
    intro n hn h
    rw [render n hn] at h
    have hdata : ((Nat.digits 10 n).reverse).map Nat.digitChar = ['0'] := by
      have := congrArg String.data h
      simpa using this
    have hlen := congrArg List.length hdata
    simp only [List.length_map, List.length_reverse, List.length_cons,
      List.length_nil] at hlen
    rcases List.length_eq_one.mp hlen with ⟨d, hd⟩
    rw [hd] at hdata
    have hrev : Nat.digits 10 n = [d] := by
      have := congrArg List.reverse hd
      simpa using this
    have hdlt : d < 10 := Nat.digits_lt_base (by norm_num) (by rw [hrev]; simp)
    have hd0 : d = 0 := by
      have : Nat.digitChar d = '0' := by simpa using hdata
      exact digitChar_inj_lt10 d 0 hdlt (by norm_num) (by simpa using this)
    have : n = 0 := by
      have hof := Nat.ofDigits_digits 10 n
      rw [hrev, hd0] at hof
      simpa using hof.symm
    exact hn this
  intro a b h
  rcases Nat.eq_zero_or_pos a with ha | ha
  · rcases Nat.eq_zero_or_pos b with hb | hb
    · rw [ha, hb]
    · exact absurd (h.symm.trans (by rw [ha]; rfl)) (digitsOf b (by omega))
  · rcases Nat.eq_zero_or_pos b with hb | hb
    · exact absurd (h.trans (by rw [hb]; rfl)) (digitsOf a (by omega))
    · rw [render a (by omega), render b (by omega)] at h
      have hdata : ((Nat.digits 10 a).reverse).map Nat.digitChar
          = ((Nat.digits 10 b).reverse).map Nat.digitChar := congrArg String.data h
      have hrev : (Nat.digits 10 a).reverse = (Nat.digits 10 b).reverse :=
        map_digitChar_inj _ _
          (fun x hx => Nat.digits_lt_base (by norm_num) (List.mem_reverse.mp hx))
          (fun x hx => Nat.digits_lt_base (by norm_num) (List.mem_reverse.mp hx)) hdata
      have : Nat.digits 10 a = Nat.digits 10 b := by
        have := congrArg List.reverse hrev
        simpa using this
      exact Nat.digits.injective 10 this

/-- For a fixed clock stamp, the smartport prediction id determines the row
index: `SP_<stamp>_<i> = SP_<stamp>_<j>` forces `i = j`. -/
theorem smartportPredictionId_inj (ts : String) (i j : Nat)
    (h : smartportPredictionId ts i = smartportPredictionId ts j) : i = j := by
  apply natDecimal_inj
  apply String.ext
  have hdata := congrArg String.data h
  simp only [smartportPredictionId, String.data_append] at hdata
  exact List.append_cancel_left hdata

/-! ## Row-lookup helper lemmas -/

theorem lookup_cons_ite (c : String) (a : String × Cell) (t : List (String × Cell)) :
    List.lookup c (a :: t) = if c == a.1 then some a.2 else List.lookup c t := by
  rcases a with ⟨k, b⟩
  cases h : (c == k) with
  | true => simp [List.lookup, h]
  | false => simp [List.lookup, h]

theorem lookupCell_append_none (r1 r2 : Row) (c : String)
    (h : lookupCell r1 c = none) : lookupCell (r1 ++ r2) c = lookupCell r2 c := by
  induction r1 with
  | nil => rfl
  | cons a t ih =>
    rw [List.cons_append]
    unfold lookupCell at h ⊢
    rw [lookup_cons_ite] at h ⊢
    by_cases hb : (c == a.1) = true
    · rw [if_pos hb] at h; exact absurd h (by simp)
    · rw [if_neg hb] at h ⊢
      exact ih h

theorem lookupCell_append_some (r1 r2 : Row) (c : String) (v : Cell)
    (h : lookupCell r1 c = some v) : lookupCell (r1 ++ r2) c = some v := by
  induction r1 with
  | nil => exact absurd h (by simp [lookupCell])
  | cons a t ih =>
    rw [List.cons_append]
    unfold lookupCell at h ⊢
    rw [lookup_cons_ite] at h ⊢
    by_cases hb : (c == a.1) = true
    · rw [if_pos hb] at h ⊢; exact h
    · rw [if_neg hb] at h ⊢
      exact ih h

/-- Lookup in a keyed map over a column list finds the generating function. -/
theorem lookup_keyed_map (f : String → Cell) (cols : List String) (c : String)
    (h : c ∈ cols) : List.lookup c (cols.map (fun x => (x, f x))) = some (f c) := by
  induction cols with
  | nil => simp at h
  | cons a t ih =>
    simp only [List.map_cons, List.lookup]
    cases hb : (c == a) with
    | true =>
      have : c = a := by simpa using hb
      rw [this]
    | false =>
      have hne : c ≠ a := by simpa using hb
      exact ih (by rcases List.mem_cons.mp h with h1 | h1; exact absurd h1 hne; exact h1)

theorem lookup_keyed_map_none (f : String → Cell) (cols : List String) (c : String)
    (h : c ∉ cols) : List.lookup c (cols.map (fun x => (x, f x))) = none := by
  induction cols with
  | nil => rfl
  | cons a t ih =>
    simp only [List.map_cons, List.lookup]
    cases hb : (c == a) with
    | true =>
      have : c = a := by simpa using hb
      exact absurd (this ▸ List.mem_cons_self a t) h
    | false => exact ih (fun hc => h (List.mem_cons.mpr (Or.inr hc)))

/-- Assignment `df[c] = v` leaves every other column unchanged. -/
theorem lookupCell_setCell_ne (r : Row) (c c2 : String) (v : Cell) (h : c2 ≠ c) :
    lookupCell (setCell r c v) c2 = lookupCell r c2 := by
  unfold setCell
  induction r with
  | nil =>
    unfold lookupCell
    rw [List.filter_nil, List.nil_append, lookup_cons_ite]
    have hb : (c2 == c) = false := by simpa using h
    rw [if_neg (by simp [hb])]
  | cons a t ih =>
    rw [List.filter_cons]
    by_cases hf : (a.1 != c) = true
    · rw [if_pos hf, List.cons_append]
      unfold lookupCell at ih ⊢
      rw [lookup_cons_ite, lookup_cons_ite]
      by_cases hb : (c2 == a.1) = true
      · rw [if_pos hb, if_pos hb]
      · rw [if_neg hb, if_neg hb]
        exact ih
    · rw [if_neg hf]
      have hac : a.1 = c := by simpa using hf
      unfold lookupCell at ih ⊢
      rw [lookup_cons_ite]
      have hb : (c2 == a.1) = false := by simp [hac, h]
      rw [if_neg (by simp [hb])]
      exact ih

/-- The time-feature step only writes the three derived columns. -/
theorem lookupCell_timeFeatures_ne (pd : Cell → Option PyDate) (r : Row) (c : String)
    (h1 : c ≠ "month") (h2 : c ≠ "day_of_week") (h3 : c ≠ "is_weekend") :
    lookupCell (timeFeatures pd r) c = lookupCell r c := by
  unfold timeFeatures
  cases lookupCell r "date" with
  | some cell =>
    simp only
    rw [lookupCell_setCell_ne _ _ _ _ h3, lookupCell_setCell_ne _ _ _ _ h2,
      lookupCell_setCell_ne _ _ _ _ h1]
  | none =>
    simp only
    rw [lookupCell_setCell_ne _ _ _ _ h3, lookupCell_setCell_ne _ _ _ _ h2,
      lookupCell_setCell_ne _ _ _ _ h1]

/-- Projecting an `Except`-valued `mapM`: when every element succeeds and a
field of the result is a function of the input, the field column of the
output is the map of that function. -/
theorem mapM_proj {α β γ : Type} (f : α → Except String β) (pid : β → γ) (g : α → γ)
    (hfg : ∀ a b, f a = .ok b → pid b = g a) :
    ∀ (l : List α) (out : List β), l.mapM f = .ok out → out.map pid = l.map g := by
  intro l
  induction l with
  | nil =>
    intro out h
    simp only [List.mapM_nil, pure, Except.pure] at h
    cases h
    rfl
  | cons a t ih =>
    intro out h
    rw [List.mapM_cons] at h
    cases hfa : f a with
    | error e => rw [hfa] at h; simp [Bind.bind, Except.bind] at h
    | ok b =>
      rw [hfa] at h
      cases hmt : t.mapM f with
      | error e =>
        rw [hmt] at h
        simp [Bind.bind, Except.bind] at h
      | ok outt =>
        rw [hmt] at h
        simp only [Bind.bind, Except.bind, pure, Except.pure] at h
        cases h
        simp only [List.map_cons]
        rw [hfg a b hfa, ih outt hmt]

/-! ## Claim theorems -/

/-- C2: for every score the risk classifier returns exactly one tier — it
agrees with the interval reading of the ordered, closed (inclusive),
most-severe-first thresholds (CRITICAL on [0.80, ∞), HIGH on [0.50, 0.80),
MEDIUM on [0.20, 0.50), LOW below 0.20) — and a probabilistic score of
exactly 0.80 is classified CRITICAL, not HIGH. -/
theorem c2_risk_classifier_refines_interval_spec :
    (∀ s : ℚ, get_risk_level s = riskTierSpec s)
    ∧ get_risk_level (mkRat 80 100) = "CRITICAL"
    ∧ get_risk_level (mkRat 80 100) ≠ "HIGH" := by
  refine ⟨fun s => ?_, by decide, by decide⟩
  unfold get_risk_level riskTierSpec
  rcases le_or_lt (mkRat 80 100) s with h8 | h8
  · rw [if_pos h8, if_pos h8]
  · rw [if_neg (not_le.mpr h8), if_neg (not_le.mpr h8)]
    rcases le_or_lt (mkRat 50 100) s with h5 | h5
    · rw [if_pos h5, if_pos ⟨h5, h8⟩]
    · rw [if_neg (not_le.mpr h5),
        if_neg (fun hc : mkRat 50 100 ≤ s ∧ s < mkRat 80 100 =>
          absurd hc.1 (not_le.mpr h5))]
      rcases le_or_lt (mkRat 20 100) s with h2 | h2
      · rw [if_pos h2, if_pos ⟨h2, h5⟩]
      · rw [if_neg (not_le.mpr h2),
          if_neg (fun hc : mkRat 20 100 ≤ s ∧ s < mkRat 50 100 =>
            absurd hc.1 (not_le.mpr h2))]

/-- C9: the risk classifier is monotone in the score under the severity order
LOW < MEDIUM < HIGH < CRITICAL: a higher score never gets a strictly lower
tier. -/
theorem c9_risk_level_monotone (s1 s2 : ℚ) (h : s1 ≤ s2) :
    riskRank (get_risk_level s1) ≤ riskRank (get_risk_level s2) := by
  unfold get_risk_level
  split_ifs <;> first | decide | (exfalso; linarith)

/-- C9 witness: a concrete pair of ordered scores. -/
theorem c9_risk_level_monotone_witness :
    riskRank (get_risk_level (mkRat 10 100)) ≤ riskRank (get_risk_level (mkRat 95 100)) :=
  c9_risk_level_monotone (mkRat 10 100) (mkRat 95 100) (by decide)

/-- C6: with a healthy store (every chunk write succeeds), persisting `N`
records in batches of size `B ≥ 1` submits exactly the chunks of the record
list, whose concatenation is the record list itself — so exactly `N` records
are committed, independently of `B`, and no failure is logged. -/
theorem c6_batched_persistence_commits_all {α : Type} (write : List α → Except String Unit)
    (records : List α) (B : Nat) (hB : 1 ≤ B) (hok : ∀ c, write c = .ok ()) :
    (persist_batches write B records).committed.flatten = records
    ∧ (persist_batches write B records).committed.flatten.length = records.length
    ∧ (persist_batches write B records).errorLogged = none := by
  unfold persist_batches
  rw [runChunks_all_ok write _ (fun c _ => hok c)]
  exact ⟨pyChunks_flatten B hB records, by rw [pyChunks_flatten B hB records], rfl⟩

/-- C6 witness: five records in batches of two, healthy store. -/
theorem c6_batched_persistence_commits_all_witness :
    (persist_batches (fun _ : List ℕ => Except.ok ()) 2 [1, 2, 3, 4, 5]).committed.flatten
        = [1, 2, 3, 4, 5]
    ∧ (persist_batches (fun _ : List ℕ => Except.ok ()) 2 [1, 2, 3, 4, 5]).committed.flatten.length
        = [1, 2, 3, 4, 5].length
    ∧ (persist_batches (fun _ : List ℕ => Except.ok ()) 2 [1, 2, 3, 4, 5]).errorLogged = none :=
  c6_batched_persistence_commits_all (fun _ => Except.ok ()) [1, 2, 3, 4, 5] 2
    (by decide) (fun _ => rfl)

/-- C1 counterexample: five records in batches of two with the middle chunk
failing.  The failing chunk is the last one attempted: the final chunk `[5]`
is never submitted to the store, and the logged failure carries only the
exception message, not the failed record range — refuting the claim that
every remaining chunk is still attempted. -/
theorem c1_counterexample :
    pyChunks 2 [1, 2, 3, 4, 5] = [[1, 2], [3, 4], [5]]
    ∧ persist_batches failingWrite 2 [1, 2, 3, 4, 5]
        = ⟨[[1, 2], [3, 4]], [[1, 2]], some "store unavailable"⟩
    ∧ [5] ∈ pyChunks 2 [1, 2, 3, 4, 5]
    ∧ [5] ∉ (persist_batches failingWrite 2 [1, 2, 3, 4, 5]).attempted := by
  decide

/-- C1 (amended): the `try` wraps the whole chunk loop, so on the first chunk
failure the exception message is logged (without the failed record range) and
persistence stops — the chunks before the failure stay committed, the failing
chunk commits nothing, and the chunks after it are never attempted. -/
theorem c1_chunk_failure_aborts_remaining {α : Type} (write : List α → Except String Unit)
    (B : Nat) (records : List α) (pre : List (List α)) (c : List α)
    (post : List (List α)) (e : String)
    (hsplit : pyChunks B records = pre ++ c :: post)
    (hpre : ∀ d ∈ pre, write d = .ok ()) (hc : write c = .error e) :
    persist_batches write B records = ⟨pre ++ [c], pre, some e⟩ := by
  unfold persist_batches
  rw [hsplit]
  exact runChunks_fail write pre c post e hpre hc

/-- C1 witness: the amended behaviour at the concrete failing store. -/
theorem c1_chunk_failure_aborts_remaining_witness :
    persist_batches failingWrite 2 [1, 2, 3, 4, 5]
      = ⟨[[1, 2], [3, 4]], [[1, 2]], some "store unavailable"⟩ :=
  c1_chunk_failure_aborts_remaining failingWrite 2 [1, 2, 3, 4, 5]
    [[1, 2]] [3, 4] [[5]] "store unavailable" (by decide)
    (by intro d hd; simp only [List.mem_singleton] at hd; subst hd; rfl) rfl

/-- C3 counterexample: on a file with no `unit_id` column the NASA pipeline
does return a structured failure naming the missing column and persists
nothing, but the detail string is capitalised `"Missing required column:
unit_id"`, not the claimed `"missing required column: unit_id"`. -/
theorem c3_counterexample :
    nasa_predict_from_file (some (fun _ => Except.ok ([] : List ℚ)))
        (.ok ⟨["cycle", "s1"], [[("cycle", Cell.num 1), ("s1", Cell.num 2)]]⟩)
        natDecimal 0 "2026-01-01T00:00:00" none
      = (.failure "Missing required column: unit_id", ⟨[], [], none⟩)
    ∧ "Missing required column: unit_id" ≠ "missing required column: unit_id" := by
  decide

/-- C3 (amended): when a structurally required identifier column (`unit_id`
or `cycle`) is entirely absent, `NASAPredictor.predict_from_file` returns the
structured failure `{"success": False, "detail": "Missing required column:
<id>"}` and performs no store interaction at all; and this is the only
missing-column condition that fails the request — with both identifier
columns present, the call succeeds whenever scoring and record construction
succeed, regardless of which other columns are absent. -/
theorem c3_missing_identifier_column_fails_structured
    (pipeline : Df → Except String (List ℚ)) (read_csv : Except String Df)
    (uuid : Nat → String) (c0 : Nat) (now : String)
    (supabase : Option (List NasaRecord → Except String Unit)) (df : Df)
    (hread : read_csv = .ok df) :
    ("unit_id" ∉ df.cols →
      nasa_predict_from_file (some pipeline) read_csv uuid c0 now supabase
        = (.failure "Missing required column: unit_id", ⟨[], [], none⟩))
    ∧ ("unit_id" ∈ df.cols → "cycle" ∉ df.cols →
      nasa_predict_from_file (some pipeline) read_csv uuid c0 now supabase
        = (.failure "Missing required column: cycle", ⟨[], [], none⟩))
    ∧ (∀ preds records, "unit_id" ∈ df.cols → "cycle" ∈ df.cols →
      pipeline (dropCols df ["unit_id", "cycle"]) = .ok preds →
      buildNasaRecords uuid c0 now df preds = .ok records →
      (nasa_predict_from_file (some pipeline) read_csv uuid c0 now supabase).1
        = .ok records.length) := by
  subst hread
  refine ⟨fun h1 => ?_, fun h1 h2 => ?_, fun preds records h1 h2 hm hb => ?_⟩
  · simp only [nasa_predict_from_file]
    rw [if_pos h1]
  · simp only [nasa_predict_from_file]
    rw [if_neg (not_not_intro h1), if_pos h2]
  · simp only [nasa_predict_from_file]
    rw [if_neg (not_not_intro h1), if_neg (not_not_intro h2)]
    simp only [hm, hb]
    cases supabase <;> rfl

/-- C3 witness: the structured failure at a concrete frame with no
`unit_id` column. -/
theorem c3_missing_identifier_column_fails_structured_witness :
    nasa_predict_from_file (some (fun _ => Except.ok ([] : List ℚ)))
        (.ok ⟨["cycle"], []⟩) natDecimal 0 "2026-01-01T00:00:00" none
      = (.failure "Missing required column: unit_id", ⟨[], [], none⟩) :=
  (c3_missing_identifier_column_fails_structured _ _ natDecimal 0
      "2026-01-01T00:00:00" none _ rfl).1 (by decide)

/-- C7 counterexample: on an unreadable file the smartport predictor does not
return a structured `{"success": False, "detail": ...}` value — its `except`
block re-raises, so the exception propagates to the caller — while the NASA
predictor on the same failing read does return a structured failure. -/
theorem c7_counterexample :
    smartport_predict_from_file (fun _ => Except.ok []) []
        (.error "could not read file") "2026-01-01 00:00:00" "20260101000000"
        (fun _ => Except.ok ())
      = Except.error "could not read file"
    ∧ (nasa_predict_from_file (some (fun _ => Except.ok []))
        (.error "could not read file") natDecimal 0 "t" none).1
      = NasaResponse.failure "could not read file" :=
  ⟨rfl, rfl⟩

/-- C7 (amended): the NASA and stockout predictors wrap every raising step of
their bodies (unreadable file, scoring/arity error, uninitialised engine)
into the structured value `{"success": False, "detail": str(e)}` with no
store interaction; the smartport predictor instead re-raises, so its failing
paths propagate the exception to the caller rather than returning a
structured value. -/
theorem c7_failure_paths (e : String) :
    (∀ (pl : Df → Except String (List ℚ)) uuid c0 now supa,
      nasa_predict_from_file (some pl) (.error e) uuid c0 now supa
        = (.failure e, ⟨[], [], none⟩))
    ∧ (∀ (pl : Df → Except String (List ℚ)) uuid c0 now supa df,
      "unit_id" ∈ df.cols → "cycle" ∈ df.cols →
      pl (dropCols df ["unit_id", "cycle"]) = .error e →
      nasa_predict_from_file (some pl) (.ok df) uuid c0 now supa
        = (.failure e, ⟨[], [], none⟩))
    ∧ (∀ uuid c0 now supa read_csv,
      stockout_predict_from_file none read_csv uuid c0 now supa
        = (.failure "Engine not initialized", ⟨[], [], none⟩))
    ∧ (∀ (pl : Df → Except String (List ℚ)) uuid c0 now supa,
      stockout_predict_from_file (some pl) (.error e) uuid c0 now supa
        = (.failure e, ⟨[], [], none⟩))
    ∧ (∀ (pl : Df → Except String (List ℚ)) uuid c0 now supa df,
      pl df = .error e →
      stockout_predict_from_file (some pl) (.ok df) uuid c0 now supa
        = (.failure e, ⟨[], [], none⟩))
    ∧ (∀ (pl : Df → Except String (List ℚ)) feats now idStamp write,
      smartport_predict_from_file pl feats (.error e) now idStamp write
        = .error e)
    ∧ (∀ (pl : Df → Except String (List ℚ)) feats df now idStamp write,
      pl (alignCols (dropCols df ["delay_flag"]) feats) = .error e →
      smartport_predict_from_file pl feats (.ok df) now idStamp write
        = .error e) := by
  refine ⟨fun pl uuid c0 now supa => rfl,
    fun pl uuid c0 now supa df h1 h2 hm => ?_,
    fun uuid c0 now supa read_csv => rfl,
    fun pl uuid c0 now supa => rfl,
    fun pl uuid c0 now supa df hm => ?_,
    fun pl feats now idStamp write => rfl,
    fun pl feats df now idStamp write hm => ?_⟩
  · simp only [nasa_predict_from_file]
    rw [if_neg (not_not_intro h1), if_neg (not_not_intro h2), hm]
  · simp only [stockout_predict_from_file]
    rw [hm]
  · simp only [smartport_predict_from_file, Bind.bind, Except.bind]
    rw [hm]

/-- C7 witness: the structured NASA failure and the propagated smartport
exception at a concrete scoring error. -/
theorem c7_failure_paths_witness :
    nasa_predict_from_file (some (fun _ => Except.ok ([] : List ℚ)))
        (.error "boom") natDecimal 0 "t" none
      = (.failure "boom", ⟨[], [], none⟩)
    ∧ smartport_predict_from_file (fun _ => Except.ok []) []
        (.error "boom") "t" "t" (fun _ => Except.ok ())
      = Except.error "boom" :=
  ⟨(c7_failure_paths "boom").1 _ natDecimal 0 "t" none,
   (c7_failure_paths "boom").2.2.2.2.2.1 _ [] "t" "t" _⟩

/-- C8 counterexample: two different uploads scored in the same wall-clock
second (same `strftime("%Y%m%d%H%M%S")` stamp) produce different records that
carry the same `prediction_id` `SP_20260101120000_0` — smartport prediction
ids are not globally unique across calls. -/
theorem c8_counterexample :
    (smartportRecords "2026-01-01 12:00:00" "20260101120000" [mkRat 50 100]).map
        (fun r => r.prediction_id)
      = ["SP_20260101120000_0"]
    ∧ (smartportRecords "2026-01-01 12:00:00" "20260101120000" [mkRat 95 100]).map
        (fun r => r.prediction_id)
      = ["SP_20260101120000_0"]
    ∧ smartportRecords "2026-01-01 12:00:00" "20260101120000" [mkRat 50 100]
      ≠ smartportRecords "2026-01-01 12:00:00" "20260101120000" [mkRat 95 100] := by
  decide

/-- C8 (amended): prediction ids are pairwise distinct within any single
call: smartport ids embed the per-call row index (for a fixed clock stamp the
id determines the index), and the NASA and stockout ids are consecutive draws
from the uuid4 stream, pairwise distinct provided the stream never repeats —
under which two calls consuming disjoint draw ranges also share no id.
Across smartport calls falling in the same second, ids can coincide (see the
counterexample). -/
theorem c8_prediction_id_uniqueness :
    (∀ ts : String, ∀ i j : Nat,
      smartportPredictionId ts i = smartportPredictionId ts j → i = j)
    ∧ (∀ nowStr idStamp probs,
      ((smartportRecords nowStr idStamp probs).map
          (fun r => r.prediction_id)).Pairwise (· ≠ ·))
    ∧ (∀ uuid : Nat → String, (∀ a b, uuid a = uuid b → a = b) →
      ∀ c0 n, (uuidBatch uuid c0 n).Pairwise (· ≠ ·))
    ∧ (∀ uuid : Nat → String, (∀ a b, uuid a = uuid b → a = b) →
      ∀ c1 n1 c2 n2, c1 + n1 ≤ c2 →
      ∀ x ∈ uuidBatch uuid c1 n1, ∀ y ∈ uuidBatch uuid c2 n2, x ≠ y)
    ∧ (∀ uuid c0 now df preds records,
      buildNasaRecords uuid c0 now df preds = .ok records →
      records.map (fun r => r.prediction_id) = uuidBatch uuid c0 df.rows.length)
    ∧ (∀ uuid c0 now_ts df probs records,
      buildStockoutRecords uuid c0 now_ts df probs = .ok records →
      records.map (fun r => r.prediction_id) = uuidBatch uuid c0 df.rows.length) := by
  have zipfst : ∀ (n : Nat) (z : List (Row × ℚ)) (uuid : Nat → String) (c0 : Nat),
      n ≤ z.length →
      ((List.range n).zip z).map (fun t => uuid (c0 + t.1))
        = uuidBatch uuid c0 n := by
    intro n z uuid c0 hlen
    have h1 : ((List.range n).zip z).map (fun t => uuid (c0 + t.1))
        = (((List.range n).zip z).map Prod.fst).map (fun k => uuid (c0 + k)) := by
      rw [List.map_map]
      rfl
    rw [h1, List.map_fst_zip _ _ (by simpa using hlen)]
    rfl
  refine ⟨smartportPredictionId_inj, ?_, ?_, ?_, ?_, ?_⟩
  · intro nowStr idStamp probs
    have h1 : (smartportRecords nowStr idStamp probs).map (fun r => r.prediction_id)
        = (List.range probs.length).map (smartportPredictionId idStamp) := by
      unfold smartportRecords
      rw [List.map_map, ← List.enum_map_fst probs, List.map_map]
      rfl
    rw [h1, List.pairwise_map]
    exact (List.pairwise_lt_range probs.length).imp
      (fun hlt heq => absurd (smartportPredictionId_inj idStamp _ _ heq) (Nat.ne_of_lt hlt))
  · intro uuid hinj c0 n
    unfold uuidBatch
    rw [List.pairwise_map]
    exact (List.pairwise_lt_range n).imp
      (fun hlt heq => absurd (by omega : c0 + _ ≠ c0 + _) (not_not_intro (hinj _ _ heq)))
  · intro uuid hinj c1 n1 c2 n2 hle x hx y hy heq
    simp only [uuidBatch, List.mem_map, List.mem_range] at hx hy
    rcases hx with ⟨k, hk, rfl⟩
    rcases hy with ⟨j, hj, rfl⟩
    have := hinj _ _ heq
    omega
  · intro uuid c0 now df preds records hb
    unfold buildNasaRecords at hb
    by_cases hlen : preds.length ≠ df.rows.length
    · rw [if_pos hlen] at hb
      exact absurd hb (by simp)
    · rw [if_neg hlen] at hb
      push_neg at hlen
      have hfg : ∀ (a : ℕ × (Row × ℚ)) (b : NasaRecord),
          (match cellToInt (getCol a.2.1 "cycle") with
           | .error e => Except.error e
           | .ok cyc =>
             Except.ok { prediction_id := uuid (c0 + a.1), unit_id := getCol a.2.1 "unit_id",
                         cycle := cyc, predicted_rul := a.2.2, timestamp := now })
            = Except.ok b → b.prediction_id = uuid (c0 + a.1) := by
        intro a b hab
        cases hcyc : cellToInt (getCol a.2.1 "cycle") with
        | error e => rw [hcyc] at hab; exact absurd hab (by simp)
        | ok cyc =>
          rw [hcyc] at hab
          injection hab with h
          rw [← h]
      have hmap := mapM_proj _ (fun rec => rec.prediction_id)
        (fun t => uuid (c0 + t.1)) hfg _ _ hb
      rw [hmap]
      exact zipfst _ _ _ _ (by simp [hlen])
  · intro uuid c0 now_ts df probs records hb
    unfold buildStockoutRecords at hb
    by_cases hlen : probs.length ≠ df.rows.length
    · rw [if_pos hlen] at hb
      exact absurd hb (by simp)
    · rw [if_neg hlen] at hb
      push_neg at hlen
      injection hb with h
      rw [← h, List.map_map]
      exact zipfst _ _ _ _ (by simp [hlen])

/-- C8 witness: distinct smartport ids within a call, and uuid batches from
the injective decimal stream: pairwise distinct within a call and disjoint
across calls with disjoint draw ranges. -/
theorem c8_prediction_id_uniqueness_witness :
    smartportPredictionId "20260101120000" 2 ≠ smartportPredictionId "20260101120000" 5
    ∧ (uuidBatch natDecimal 0 3).Pairwise (· ≠ ·)
    ∧ ∀ x ∈ uuidBatch natDecimal 0 2, ∀ y ∈ uuidBatch natDecimal 2 2, x ≠ y :=
  ⟨fun h => absurd (c8_prediction_id_uniqueness.1 "20260101120000" 2 5 h) (by decide),
   c8_prediction_id_uniqueness.2.2.1 natDecimal natDecimal_inj 0 3,
   c8_prediction_id_uniqueness.2.2.2.1 natDecimal natDecimal_inj 0 2 2 2 (by decide)⟩

/-- C10: `get_supabase` never raises (it is a total function of the
environment, the `create_client` outcome and the cached global): it returns
`None` when `SUPABASE_URL` or `SUPABASE_KEY` is unset or empty, or when
`create_client` raises; and once a call has successfully created and cached a
client, every subsequent call returns that same client without calling
`create_client` again. -/
theorem c10_get_supabase_none_on_failure_and_cached :
    (∀ (C : Type) (key : Option String) create,
      get_supabase C none key create none = ⟨none, none, false⟩)
    ∧ (∀ (C : Type) (url : Option String) create,
      get_supabase C url none create none = ⟨none, none, false⟩)
    ∧ (∀ (C : Type) (u k : String) create, u = "" ∨ k = "" →
      get_supabase C (some u) (some k) create none = ⟨none, none, false⟩)
    ∧ (∀ (C : Type) (u k : String) create e, u ≠ "" → k ≠ "" →
      create u k = .error e →
      get_supabase C (some u) (some k) create none = ⟨none, none, true⟩)
    ∧ (∀ (C : Type) url key create (c : C),
      get_supabase C url key create (some c) = ⟨some c, some c, false⟩)
    ∧ (∀ (C : Type) url key create url2 key2 create2 (c : C),
      (get_supabase C url key create none).state = some c →
      get_supabase C url2 key2 create2 (some c) = ⟨some c, some c, false⟩) := by
  refine ⟨fun C key create => rfl,
    fun C url create => by cases url <;> rfl,
    fun C u k create h => ?_,
    fun C u k create e hu hk hc => ?_,
    fun C url key create c => rfl,
    fun C url key create url2 key2 create2 c h => rfl⟩
  · rcases h with h | h <;> subst h <;> simp [get_supabase]
  · have hcond : (u == "" || k == "") = false := by
      simp only [Bool.or_eq_false_iff, beq_eq_false_iff_ne, ne_eq]
      exact ⟨hu, hk⟩
    simp [get_supabase, hcond, hc]

/-- C10 witness: a failing `create_client` yields `None` with no caching, and
a client cached by a successful first call is returned as is by a later call
under a different environment without calling `create_client`. -/
theorem c10_get_supabase_none_on_failure_and_cached_witness :
    get_supabase Nat (some "u") (some "k")
        (fun _ _ => Except.error "connection refused") none
      = ⟨none, none, true⟩
    ∧ get_supabase Nat none (some "k2") (fun _ _ => Except.ok 5) (some 7)
      = ⟨some 7, some 7, false⟩ :=
  ⟨c10_get_supabase_none_on_failure_and_cached.2.2.2.1 Nat "u" "k" _
      "connection refused" (by decide) (by decide) rfl,
   c10_get_supabase_none_on_failure_and_cached.2.2.2.2.2 Nat (some "a") (some "b")
      (fun _ _ => Except.ok 7) none (some "k2") (fun _ _ => Except.ok 5) 7 rfl⟩

/-- The transformed value of a numeric-schema column is the numeric
enforcement of the post-time-features row at that column. -/
theorem transformValue_num (pd : Cell → Option PyDate) (r : Row) (c : String)
    (hc : c ∈ stockout_num_cols) (hnc : c ∉ stockout_cat_cols) :
    transformValue pd r c = some (numCell (timeFeatures pd (renameRow r)) c) := by
  simp only [transformValue, stockoutTransformRow]
  rw [lookupCell_append_none _ _ _ (lookup_keyed_map_none _ _ _ hnc)]
  exact lookup_keyed_map _ _ _ hc

/-- The transformed value of a categorical-schema column is the categorical
enforcement of the post-time-features row at that column. -/
theorem transformValue_cat (pd : Cell → Option PyDate) (r : Row) (c : String)
    (hc : c ∈ stockout_cat_cols) :
    transformValue pd r c = some (catCell (timeFeatures pd (renameRow r)) c) := by
  simp only [transformValue, stockoutTransformRow]
  exact lookupCell_append_some _ _ _ _ (lookup_keyed_map _ _ _ hc)

/-- C4: normalization never raises (the embedded transform is a total
function) and fills domain defaults: a numeric-schema column absent from the
(renamed) input row becomes `0.0` and a categorical-schema column absent
becomes `"Unknown"`; a numeric-schema cell holding a string is coerced after
comma/whitespace cleaning, and a value that still fails coercion becomes the
default `0.0` of the column — e.g. `" 1,234 "` becomes `1234` and `"n/a"`
becomes
`0`. -/
theorem c4_normalize_fills_defaults_and_coerces :
    (∀ (pd : Cell → Option PyDate) (r : Row) (c : String),
      c ∈ stockout_num_cols → c ≠ "is_weekend" →
      lookupCell (renameRow r) c = none →
      transformValue pd r c = some (.num 0))
    ∧ (∀ (pd : Cell → Option PyDate) (r : Row) (c : String),
      c ∈ stockout_cat_cols → c ≠ "month" → c ≠ "day_of_week" →
      lookupCell (renameRow r) c = none →
      transformValue pd r c = some (.str "Unknown"))
    ∧ (∀ (pd : Cell → Option PyDate) (r : Row) (c : String) (s : String),
      c ∈ stockout_num_cols → c ≠ "is_weekend" →
      lookupCell (renameRow r) c = some (.str s) →
      transformValue pd r c = some (.num ((parseRat (cleanNumericStr s)).getD 0)))
    ∧ transformValue (fun _ => none) [("price", Cell.str " 1,234 ")] "price"
      = some (Cell.num (mkRat 1234 1))
    ∧ transformValue (fun _ => none) [("price", Cell.str "n/a")] "price"
      = some (Cell.num 0) := by
  refine ⟨?_, ?_, ?_, by decide, by decide⟩
  · intro pd r c hc hw habs
    fin_cases hc <;>
      first
        | exact absurd rfl hw
        | (rw [transformValue_num pd r _ (by decide) (by decide)]
           unfold numCell
           rw [lookupCell_timeFeatures_ne pd _ _ (by decide) (by decide) (by decide),
             habs]
           rfl)
  · intro pd r c hc hm hd habs
    fin_cases hc <;>
      first
        | exact absurd rfl hm
        | exact absurd rfl hd
        | (rw [transformValue_cat pd r _ (by decide)]
           unfold catCell
           rw [lookupCell_timeFeatures_ne pd _ _ (by decide) (by decide) (by decide),
             habs]
           rfl)
  · intro pd r c s hc hw habs
    fin_cases hc <;>
      first
        | exact absurd rfl hw
        | (rw [transformValue_num pd r _ (by decide) (by decide)]
           unfold numCell
           rw [lookupCell_timeFeatures_ne pd _ _ (by decide) (by decide) (by decide),
             habs]
           rfl)

/-- C4 witness: a row missing `units_sold` and `category` gets the defaults,
and a comma-and-space numeric string in `price` is coerced. -/
theorem c4_normalize_fills_defaults_and_coerces_witness :
    transformValue (fun _ => none) [("price", Cell.str " 1,234 ")] "units_sold"
      = some (Cell.num 0)
    ∧ transformValue (fun _ => none) [("price", Cell.str " 1,234 ")] "category"
      = some (Cell.str "Unknown")
    ∧ transformValue (fun _ => none) [("price", Cell.str " 1,234 ")] "price"
      = some (Cell.num ((parseRat (cleanNumericStr " 1,234 ")).getD 0)) :=
  ⟨c4_normalize_fills_defaults_and_coerces.1 (fun _ => none) _ "units_sold"
      (by decide) (by decide) (by decide),
   c4_normalize_fills_defaults_and_coerces.2.1 (fun _ => none) _ "category"
      (by decide) (by decide) (by decide) (by decide),
   c4_normalize_fills_defaults_and_coerces.2.2.1 (fun _ => none) _ "price" " 1,234 "
      (by decide) (by decide) (by decide)⟩

/-- C5 (evaluating the code at the failing input): for a row whose date cell
cannot be parsed, `is_weekend` is `0.0` as claimed, but `day_of_week` is the
string `"<NA>"`, not `"Unknown"`: the `.fillna("Unknown")` of line 58 runs
after `.astype(str)` has already stringified the missing value, so it never
fires.  A parsable row in the same frame is unaffected (day 5, weekend). -/
theorem c5_unparsable_date_gives_na_string_not_unknown :
    transformValue datableParser [("date", Cell.str "garbage")] "day_of_week"
      = some (Cell.str "<NA>")
    ∧ transformValue datableParser [("date", Cell.str "garbage")] "is_weekend"
      = some (Cell.num 0)
    ∧ transformValue datableParser [("date", Cell.str "2024-01-06")] "day_of_week"
      = some (Cell.str "5")
    ∧ transformValue datableParser [("date", Cell.str "2024-01-06")] "is_weekend"
      = some (Cell.num 1)
    ∧ Cell.str "<NA>" ≠ Cell.str "Unknown" := by
  decide
